import Mathlib

/-!
Verification of the Garmin Connect Home Assistant integration
(`custom_components/garmin_connect`), focused on the alarm-projection
algorithm (`coordinator.py` / `__init__.py`: `calculate_next_active_alarms`),
the per-field sleep extraction and error routing of
`coordinator._async_update_data`, and the login gating of the write-back
service handlers (`services.py`, `sensor.py`).

Time model: local wall-clock instants are integers counting minutes since an
epoch that falls on a Monday at 00:00.  The integration always builds and
compares aware datetimes in the single configured `ZoneInfo` zone, so a
fixed-offset wall-clock model is used: `datetime.combine(date, min.time())`
becomes rounding down to a multiple of 1440, `date.isoweekday()` becomes
`(dayIndex % 7) + 1`, and `timedelta` arithmetic becomes integer addition.
Python `//` and `%` agree with Lean `Int` `/` and `%` (floor division,
nonnegative remainder) for the positive divisors 1440 and 7 used here.
-/

namespace GarminConnect

/-- The strings that occur in `alarmDays` entries of Garmin device alarm
settings: the ten weekday keys of `DAY_TO_NUMBER` in `const.py`, plus
`"ONCE"`. -/
inductive AlarmDay where
  | once
  | mo | mShort | tu | we | wShort | th | fr | fShort | sa | su
deriving DecidableEq, Repr

/-- `DAY_TO_NUMBER` from `const.py`: Mo/M 1, Tu 2, We/W 3, Th 4, Fr/F 5,
Sa 6, Su 7.  The dictionary has no entry for "ONCE"; the code branches on
`day == "ONCE"` before consulting it, so the value returned for `once` is
never used (we pick 0). -/
def DAY_TO_NUMBER : AlarmDay → Int
  | .once => 0
  | .mo => 1
  | .mShort => 1
  | .tu => 2
  | .we => 3
  | .wShort => 3
  | .th => 4
  | .fr => 5
  | .fShort => 5
  | .sa => 6
  | .su => 7

/-- One entry of the device-alarm list returned by `get_device_alarms`,
restricted to the fields `calculate_next_active_alarms` reads. -/
structure AlarmSetting where
  alarmMode : String
  alarmDays : List AlarmDay
  alarmTime : Int
deriving DecidableEq, Repr

/-- `now.date()` as a day index: minutes to days, rounding down. -/
def dateOf (x : Int) : Int := x / 1440

/-- `date.isoweekday()`: 1 = Monday, ..., 7 = Sunday (epoch day 0 is a
Monday). -/
def isoweekday (x : Int) : Int := dateOf x % 7 + 1

/-- `datetime.combine(now.date(), datetime.min.time())`: midnight of the
current day, in minutes. -/
def midnightOf (x : Int) : Int := dateOf x * 1440

/-- The `day == "ONCE"` branch of `calculate_next_active_alarms`
(coordinator.py): today's midnight plus `alarmTime` minutes, advanced by one
day when strictly before `now`. -/
def projectOnce (now t : Int) : Int :=
  let alarm := midnightOf now + t
  if alarm < now then alarm + 1440 else alarm

/-- `start_of_week` of the coordinator.py revision:
`now.date() - timedelta(days=now.date().isoweekday() - 1)` at midnight. -/
def startOfWeek (now : Int) : Int :=
  (dateOf now - (isoweekday now - 1)) * 1440

/-- The weekly branch of `calculate_next_active_alarms` (coordinator.py):
`start_of_week + timedelta(days=DAY_TO_NUMBER[day] - 1, minutes=alarm_time)`,
advanced by seven days when strictly before `now`. -/
def projectWeekly (now t : Int) (d : AlarmDay) : Int :=
  let alarm := startOfWeek now + (DAY_TO_NUMBER d - 1) * 1440 + t
  if alarm < now then alarm + 7 * 1440 else alarm

/-- The per-day body of the inner loop of `calculate_next_active_alarms`
(coordinator.py). -/
def projectAlarm (now t : Int) (d : AlarmDay) : Int :=
  if d = .once then projectOnce now t else projectWeekly now t d

/-- The list of projected instants appended by the two nested loops of
`calculate_next_active_alarms` (coordinator.py), in iteration order:
alarms with `alarmMode != "ON"` are skipped (`continue`), every day entry of
an active alarm contributes one instant. -/
def occurrences (alarms : List AlarmSetting) (now : Int) : List Int :=
  (alarms.filter (fun a => a.alarmMode = "ON")).flatMap
    (fun a => a.alarmDays.map (projectAlarm now a.alarmTime))

/-- `calculate_next_active_alarms(alarms, time_zone)` from coordinator.py.
The Python parameter may be a list or `None`, modelled as
`Option (List AlarmSetting)`; `if not alarms` is true for both `None` and
`[]` and returns the (empty) accumulator.  Otherwise the projected instants
are collected and the function returns `sorted(active_alarms)` when at least
one alarm is active, else `None`.  Python sorts the `isoformat` strings,
whose lexicographic order coincides with chronological order in the
fixed-offset model. -/
def calculate_next_active_alarms (alarms : Option (List AlarmSetting))
    (now : Int) : Option (List Int) :=
  match alarms with
  | none => some []
  | some l =>
    if l = [] then some []
    else
      let active := occurrences l now
      if active = [] then none
      else some (List.insertionSort (· ≤ ·) active)

/-- `start_of_week` of the older `__init__.py` revision:
`now.date() - timedelta(days=now.date().isoweekday() % 7)` at midnight. -/
def startOfWeekOld (now : Int) : Int :=
  (dateOf now - isoweekday now % 7) * 1440

/-- The weekly branch of the older `__init__.py` revision:
`days_to_add = DAY_TO_NUMBER[day] % 7`, added to its (Sunday-based)
`start_of_week`, advanced by seven days when strictly before `now`. -/
def projectWeeklyOld (now t : Int) (d : AlarmDay) : Int :=
  let alarm := startOfWeekOld now + DAY_TO_NUMBER d % 7 * 1440 + t
  if alarm < now then alarm + 7 * 1440 else alarm

/-- The per-day body of the inner loop of the `__init__.py` revision; its
`ONCE` branch is textually identical to the coordinator.py one. -/
def projectAlarmOld (now t : Int) (d : AlarmDay) : Int :=
  if d = .once then projectOnce now t else projectWeeklyOld now t d

/-- The occurrence list of the `__init__.py` revision. -/
def occurrencesOld (alarms : List AlarmSetting) (now : Int) : List Int :=
  (alarms.filter (fun a => a.alarmMode = "ON")).flatMap
    (fun a => a.alarmDays.map (projectAlarmOld now a.alarmTime))

/-- `calculate_next_active_alarms` from the older `__init__.py` revision:
identical to the coordinator.py one except for the weekly-branch
arithmetic. -/
def calculate_next_active_alarms_old (alarms : Option (List AlarmSetting))
    (now : Int) : Option (List Int) :=
  match alarms with
  | none => some []
  | some l =>
    if l = [] then some []
    else
      let active := occurrencesOld l now
      if active = [] then none
      else some (List.insertionSort (· ≤ ·) active)

/-! ## JSON model for the per-field sleep extraction in `_async_update_data` -/

/-- A Python JSON-decoded value, as returned by the vendor client. -/
inductive Json where
  | null
  | num (n : Int)
  | str (s : String)
  | obj (fields : List (String × Json))

/-- The Python exceptions relevant to subscription: `d[k]` raises `KeyError`
on a dict without the key and `TypeError` on a non-dict (e.g. `None`). -/
inductive PyErr where
  | keyError
  | typeError
deriving DecidableEq, Repr

/-- Python subscription `j[k]`. -/
def getItem (j : Json) (k : String) : Except PyErr Json :=
  match j with
  | .obj fields =>
    match fields.lookup k with
    | some v => .ok v
    | none => .error .keyError
  | _ => .error .typeError

/-- A chain of subscriptions `j[k1][k2]...`, as in
`sleep_data["dailySleepDTO"]["sleepScores"]["overall"]["value"]`; the first
exception propagates. -/
def getPath (j : Json) : List String → Except PyErr Json
  | [] => .ok j
  | k :: ks =>
    match getItem j k with
    | .ok v => getPath v ks
    | .error e => .error e

/-- One `try: x = chain except KeyError: pass` block of
`_async_update_data` (coordinator.py lines 364-392): `KeyError` leaves the
variable at its initial `None`; any other exception propagates. -/
def tryExtract (j : Json) (p : List String) : Except PyErr (Option Json) :=
  match getPath j p with
  | .ok v => .ok (some v)
  | .error .keyError => .ok none
  | .error e => .error e

/-- The six key paths extracted from `sleep_data`, in source order. -/
def sleepPath : Fin 6 → List String
  | 0 => ["dailySleepDTO", "sleepScores", "overall", "value"]
  | 1 => ["dailySleepDTO", "sleepTimeSeconds"]
  | 2 => ["dailySleepDTO", "deepSleepSeconds"]
  | 3 => ["dailySleepDTO", "lightSleepSeconds"]
  | 4 => ["dailySleepDTO", "remSleepSeconds"]
  | 5 => ["dailySleepDTO", "awakeSleepSeconds"]

/-- The six derived sleep values of the returned snapshot, each `None` when
its extraction hit a missing key. -/
structure SleepDerived where
  sleepScore : Option Json
  sleepTimeSeconds : Option Json
  deepSleepSeconds : Option Json
  lightSleepSeconds : Option Json
  remSleepSeconds : Option Json
  awakeSleepSeconds : Option Json

/-- The run of the six sleep `try`/`except KeyError` blocks of
`_async_update_data`, in source order; a non-`KeyError` exception in any
block aborts the cycle. -/
def extractSleepDerived (sleep_data : Json) : Except PyErr SleepDerived := do
  let s0 ← tryExtract sleep_data (sleepPath 0)
  let s1 ← tryExtract sleep_data (sleepPath 1)
  let s2 ← tryExtract sleep_data (sleepPath 2)
  let s3 ← tryExtract sleep_data (sleepPath 3)
  let s4 ← tryExtract sleep_data (sleepPath 4)
  let s5 ← tryExtract sleep_data (sleepPath 5)
  pure ⟨s0, s1, s2, s3, s4, s5⟩

/-- Project the field of `SleepDerived` corresponding to `sleepPath i`. -/
def sleepField (i : Fin 6) (r : SleepDerived) : Option Json :=
  match i with
  | 0 => r.sleepScore
  | 1 => r.sleepTimeSeconds
  | 2 => r.deepSleepSeconds
  | 3 => r.lightSleepSeconds
  | 4 => r.remSleepSeconds
  | 5 => r.awakeSleepSeconds

/-- The value a successful extraction leaves in the snapshot: the path's
value when present, `None` when the path misses a key. -/
def exceptToOption (r : Except PyErr Json) : Option Json :=
  match r with
  | .ok v => some v
  | .error _ => none

/-- The sleep-derived entries of the snapshot dict returned by
`_async_update_data` (coordinator.py lines 420-425), keyed as in the
source. -/
def sleepEntries (r : SleepDerived) : List (String × Option Json) :=
  [("sleepScore", r.sleepScore),
   ("sleepTimeSeconds", r.sleepTimeSeconds),
   ("deepSleepSeconds", r.deepSleepSeconds),
   ("lightSleepSeconds", r.lightSleepSeconds),
   ("remSleepSeconds", r.remSleepSeconds),
   ("awakeSleepSeconds", r.awakeSleepSeconds)]

/-- The snapshot assembly as far as the sleep extraction is concerned: the
rest of the snapshot (`others`) merged with the six derived sleep entries;
an exception escaping the extraction block aborts the cycle. -/
def assembleSnapshot (others : List (String × Option Json))
    (sleep_data : Json) : Except PyErr (List (String × Option Json)) :=
  (extractSleepDerived sleep_data).map (fun r => others ++ sleepEntries r)

/-! ## Control-flow skeleton of `_async_update_data` error routing -/

/-- The exceptions a vendor-API executor call can raise into one of the
three `try` blocks of `_async_update_data`: the three `garminconnect`
errors, `requests.exceptions.HTTPError` with its status code, the
`KeyError`/`TypeError`/`ValueError`/`ConnectionError` group named in the
gear-stats handler, and any other `Exception`. -/
inductive GErr where
  | auth
  | tooMany
  | conn
  | http (code : Nat)
  | pyKey
  | otherExc
deriving DecidableEq, Repr

/-- The outcome of `async_login` (coordinator.py lines 53-87): it returns
`True` or `False`, or raises `ConfigEntryAuthFailed` /
`ConfigEntryNotReady`. -/
inductive LoginOutcome where
  | ok
  | failed
  | raisedAuth
  | raisedNotReady
deriving DecidableEq, Repr

/-- One refresh cycle's external behavior: the first exception (if any)
raised inside each of the three fetch `try` blocks, whether
`get_body_composition` had already succeeded when the first block was
aborted (always true when the first block completes), and what a relogin
attempt would return. -/
structure FetchBehavior where
  phase1 : Option GErr
  bodyFetched : Bool
  login : LoginOutcome
  phase2 : Option GErr
  phase3 : Option GErr
deriving DecidableEq, Repr

/-- How one call to `_async_update_data` ends: a returned snapshot (with
`empty = true` for the bare `return` of an empty dict), `UpdateFailed`,
`ConfigEntryAuthFailed`, `ConfigEntryNotReady`, or an exception that no
handler catches. -/
inductive UpdateOutcome where
  | snapshot (empty : Bool)
  | updateFailed
  | raisedAuthFailed
  | raisedNotReady
  | uncaught (e : GErr)
deriving DecidableEq, Repr

/-- The final `return` statement (coordinator.py lines 412-437): spreading
`body["totalAverage"]` raises `KeyError` when `get_body_composition` never
ran; otherwise a full snapshot is returned. -/
def finalReturn (b : FetchBehavior) : UpdateOutcome :=
  if b.bodyFetched then .snapshot false else .uncaught .pyKey

/-- The gear-stats `try` block (coordinator.py lines 339-362):
authentication errors re-raise as `ConfigEntryAuthFailed`, rate-limit and
connection errors as `ConfigEntryNotReady`, `HTTPError` and the
`KeyError`/`TypeError`/`ValueError`/`ConnectionError` group fall through
(`pass` / debug log), anything else propagates. -/
def runPhase3 (b : FetchBehavior) : UpdateOutcome :=
  match b.phase3 with
  | none => finalReturn b
  | some .auth => .raisedAuthFailed
  | some .tooMany => .raisedNotReady
  | some .conn => .raisedNotReady
  | some (.http _) => finalReturn b
  | some .pyKey => finalReturn b
  | some .otherExc => .uncaught .otherExc

/-- The second fetch `try` block (coordinator.py lines 280-337):
authentication errors and HTTP 401 re-raise as `ConfigEntryAuthFailed`,
connection errors as `ConfigEntryNotReady`; a rate-limit error, any other
`HTTPError` and any other `Exception` end the cycle by returning an empty
dict. -/
def runPhase2 (b : FetchBehavior) : UpdateOutcome :=
  match b.phase2 with
  | none => runPhase3 b
  | some .auth => .raisedAuthFailed
  | some .tooMany => .snapshot true
  | some .conn => .raisedNotReady
  | some (.http code) => if code = 401 then .raisedAuthFailed else .snapshot true
  | some .pyKey => .snapshot true
  | some .otherExc => .snapshot true

/-- `_async_update_data` (coordinator.py lines 89-437) as a routing
function: the first fetch `try` block catches only the three
`garminconnect` errors and answers them with a relogin — a failed relogin
raises `UpdateFailed`, a relogin that itself raises propagates, and a
successful relogin lets the cycle continue with whatever data was fetched;
any other exception in the first block propagates uncaught. -/
def updateData (b : FetchBehavior) : UpdateOutcome :=
  match b.phase1 with
  | none => runPhase2 b
  | some .auth | some .tooMany | some .conn =>
    match b.login with
    | .ok => runPhase2 b
    | .failed => .updateFailed
    | .raisedAuth => .raisedAuthFailed
    | .raisedNotReady => .raisedNotReady
  | some e => .uncaught e

/-! ## Login gating of the write-back handlers (`services.py`, `sensor.py`) -/

/-- How a service handler call ends: normal completion, a
`HomeAssistantError`/`IntegrationError` raised by the handler itself, or an
exception propagating through it (e.g. one raised by `async_login`). -/
inductive SvcResult where
  | done
  | haError
  | propagated
deriving DecidableEq, Repr

/-- A handler run: its outcome plus the vendor-API write calls it performed,
in order. -/
structure SvcRun where
  result : SvcResult
  writes : List String
deriving DecidableEq, Repr

/-- `handle_add_body_composition` (services.py lines 95-141): read the call
parameters, require `async_login`, then perform the single
`add_body_composition` write, wrapping any exception from it in a
`HomeAssistantError`.  Parameter extraction is pure and elided; `apiRaises`
says whether the write call raises. -/
def handle_add_body_composition (login : LoginOutcome) (apiRaises : Bool) :
    SvcRun :=
  match login with
  | .raisedAuth => ⟨.propagated, []⟩
  | .raisedNotReady => ⟨.propagated, []⟩
  | .failed => ⟨.haError, []⟩
  | .ok =>
    if apiRaises then ⟨.haError, ["add_body_composition"]⟩
    else ⟨.done, ["add_body_composition"]⟩

/-- `handle_add_blood_pressure` (services.py lines 143-173): same gating,
single `set_blood_pressure` write. -/
def handle_add_blood_pressure (login : LoginOutcome) (apiRaises : Bool) :
    SvcRun :=
  match login with
  | .raisedAuth => ⟨.propagated, []⟩
  | .raisedNotReady => ⟨.propagated, []⟩
  | .failed => ⟨.haError, []⟩
  | .ok =>
    if apiRaises then ⟨.haError, ["set_blood_pressure"]⟩
    else ⟨.done, ["set_blood_pressure"]⟩

/-- `handle_create_activity` (services.py lines 175-211): same gating,
single `create_manual_activity` write. -/
def handle_create_activity (login : LoginOutcome) (apiRaises : Bool) :
    SvcRun :=
  match login with
  | .raisedAuth => ⟨.propagated, []⟩
  | .raisedNotReady => ⟨.propagated, []⟩
  | .failed => ⟨.haError, []⟩
  | .ok =>
    if apiRaises then ⟨.haError, ["create_manual_activity"]⟩
    else ⟨.done, ["create_manual_activity"]⟩

/-- `handle_upload_activity` (services.py lines 213-244): require
`async_login`, then check the file exists (raising `HomeAssistantError`
without any write when it does not), then perform the single
`upload_activity` write. -/
def handle_upload_activity (login : LoginOutcome) (fileExists : Bool)
    (apiRaises : Bool) : SvcRun :=
  match login with
  | .raisedAuth => ⟨.propagated, []⟩
  | .raisedNotReady => ⟨.propagated, []⟩
  | .failed => ⟨.haError, []⟩
  | .ok =>
    if ¬fileExists then ⟨.haError, []⟩
    else if apiRaises then ⟨.haError, ["upload_activity"]⟩
    else ⟨.done, ["upload_activity"]⟩

/-- `set_active_gear` (sensor.py lines 502-559): require `async_login`
(raising `IntegrationError` on `False`), look up the activity type id
(`next(filter(...))` raising `StopIteration`, which propagates, when no
type matches), then either one `set_gear_default` write, or — for the
only-this-as-default setting — one write per other default gear to
deactivate followed by one write activating this gear.  `lookupFound` says
whether the activity-type lookup succeeds; `onlyThisAsDefault` selects the
branch; `toDeactivate` counts the other defaults to unset. -/
def set_active_gear (login : LoginOutcome) (lookupFound : Bool)
    (onlyThisAsDefault : Bool) (toDeactivate : Nat) : SvcRun :=
  match login with
  | .raisedAuth => ⟨.propagated, []⟩
  | .raisedNotReady => ⟨.propagated, []⟩
  | .failed => ⟨.haError, []⟩
  | .ok =>
    if ¬lookupFound then ⟨.propagated, []⟩
    else if ¬onlyThisAsDefault then ⟨.done, ["set_gear_default"]⟩
    else ⟨.done, List.replicate toDeactivate "set_gear_default" ++
      ["set_gear_default"]⟩

/-! ## Helper lemmas -/

theorem occurrences_nil_of_no_active (alarms : List AlarmSetting) (now : Int)
    (h : ∀ a ∈ alarms, a.alarmMode ≠ "ON") : occurrences alarms now = [] := by
  unfold occurrences
  have hfilter : alarms.filter (fun a => a.alarmMode = "ON") = [] := by
    rw [List.filter_eq_nil_iff]
    intro a ha
    simpa using h a ha
  rw [hfilter]
  rfl

theorem projectAlarmOld_eq_projectAlarm (now t : Int) (h0 : 0 ≤ t)
    (h1 : t < 1440) (d : AlarmDay) :
    projectAlarmOld now t d = projectAlarm now t d := by
  cases d <;>
    simp only [projectAlarmOld, projectAlarm, projectWeeklyOld, projectWeekly,
      projectOnce, startOfWeek, startOfWeekOld, isoweekday, dateOf,
      DAY_TO_NUMBER, reduceCtorEq, if_false, if_true, reduceIte] <;>
    split_ifs <;> omega

theorem occurrencesOld_eq_occurrences (alarms : List AlarmSetting) (now : Int)
    (h : ∀ a ∈ alarms, 0 ≤ a.alarmTime ∧ a.alarmTime < 1440) :
    occurrencesOld alarms now = occurrences alarms now := by
  unfold occurrencesOld occurrences
  induction alarms with
  | nil => rfl
  | cons a as ih =>
    have ha := h a (by simp)
    have hfun : projectAlarmOld now a.alarmTime = projectAlarm now a.alarmTime :=
      funext fun d => projectAlarmOld_eq_projectAlarm now a.alarmTime ha.1 ha.2 d
    have has : ∀ x ∈ as, 0 ≤ x.alarmTime ∧ x.alarmTime < 1440 :=
      fun x hx => h x (by simp [hx])
    by_cases hm : a.alarmMode = "ON" <;>
      simp [List.filter_cons, hm, hfun, ih has]

/-! ## Claims about `calculate_next_active_alarms` -/

/-- C1: an active weekly alarm on named weekday `D` with minute-of-day `t`
is projected to the most recent week start (midnight of the Monday of the
current week) plus `DAY_TO_NUMBER[D] - 1` days plus `t` minutes, advanced by
exactly seven days when strictly before `now`; the resulting instant falls
on weekday `D` at minute `t` and lies in `[now, now + 7 days)`. -/
theorem weekly_alarm_projection (now t : Int) (d : AlarmDay)
    (hd : d ≠ .once) (h0 : 0 ≤ t) (h1 : t < 1440) :
    calculate_next_active_alarms (some [⟨"ON", [d], t⟩]) now
        = some [projectWeekly now t d]
    ∧ projectWeekly now t d =
        (if startOfWeek now + (DAY_TO_NUMBER d - 1) * 1440 + t < now
         then startOfWeek now + (DAY_TO_NUMBER d - 1) * 1440 + t + 7 * 1440
         else startOfWeek now + (DAY_TO_NUMBER d - 1) * 1440 + t)
    ∧ isoweekday (startOfWeek now) = 1
    ∧ startOfWeek now ≤ now ∧ now < startOfWeek now + 7 * 1440
    ∧ isoweekday (projectWeekly now t d) = DAY_TO_NUMBER d
    ∧ projectWeekly now t d % 1440 = t
    ∧ now ≤ projectWeekly now t d
    ∧ projectWeekly now t d < now + 7 * 1440 := by
  refine ⟨?_, rfl, ?_, ?_, ?_, ?_, ?_, ?_, ?_⟩
  · simp [calculate_next_active_alarms, occurrences, projectAlarm, hd,
      List.insertionSort]
  · simp only [startOfWeek, isoweekday, dateOf]; omega
  · simp only [startOfWeek, isoweekday, dateOf]; omega
  · simp only [startOfWeek, isoweekday, dateOf]; omega
  · cases d <;> first
      | exact absurd rfl hd
      | (simp only [projectWeekly, startOfWeek, isoweekday, dateOf,
          DAY_TO_NUMBER]; split_ifs <;> omega)
  · cases d <;> first
      | exact absurd rfl hd
      | (simp only [projectWeekly, startOfWeek, isoweekday, dateOf,
          DAY_TO_NUMBER]; split_ifs <;> omega)
  · cases d <;> first
      | exact absurd rfl hd
      | (simp only [projectWeekly, startOfWeek, isoweekday, dateOf,
          DAY_TO_NUMBER]; split_ifs <;> omega)
  · cases d <;> first
      | exact absurd rfl hd
      | (simp only [projectWeekly, startOfWeek, isoweekday, dateOf,
          DAY_TO_NUMBER]; split_ifs <;> omega)

/-- Witness for C1: a Sunday alarm at 08:00 seen on a Monday at 10:00. -/
theorem weekly_alarm_projection_witness :
    calculate_next_active_alarms (some [⟨"ON", [AlarmDay.su], 480⟩]) 600
        = some [projectWeekly 600 480 .su]
    ∧ projectWeekly 600 480 .su =
        (if startOfWeek 600 + (DAY_TO_NUMBER .su - 1) * 1440 + 480 < 600
         then startOfWeek 600 + (DAY_TO_NUMBER .su - 1) * 1440 + 480 + 7 * 1440
         else startOfWeek 600 + (DAY_TO_NUMBER .su - 1) * 1440 + 480)
    ∧ isoweekday (startOfWeek 600) = 1
    ∧ startOfWeek 600 ≤ 600 ∧ 600 < startOfWeek 600 + 7 * 1440
    ∧ isoweekday (projectWeekly 600 480 .su) = DAY_TO_NUMBER .su
    ∧ projectWeekly 600 480 .su % 1440 = 480
    ∧ 600 ≤ projectWeekly 600 480 .su
    ∧ projectWeekly 600 480 .su < 600 + 7 * 1440 :=
  weekly_alarm_projection 600 480 .su (by decide) (by decide) (by decide)

/-- C2 holds as amended: an active "ONCE" alarm at minute-of-day `t`
projects to today's midnight plus `t` when that instant is not strictly
before `now` (this includes the instant exactly equal to `now`, which the
spec's strict "still in the future" wording would send to tomorrow), and
otherwise to tomorrow's midnight plus `t`; the result lies in
`[now, now + 1 day)` at minute `t`. -/
theorem once_alarm_projection (now t : Int) (h0 : 0 ≤ t) (h1 : t < 1440) :
    calculate_next_active_alarms (some [⟨"ON", [AlarmDay.once], t⟩]) now
        = some [projectOnce now t]
    ∧ projectOnce now t =
        (if now ≤ midnightOf now + t then midnightOf now + t
         else midnightOf now + t + 1440)
    ∧ now ≤ projectOnce now t
    ∧ projectOnce now t < now + 1440
    ∧ projectOnce now t % 1440 = t := by
  refine ⟨?_, ?_, ?_, ?_, ?_⟩
  · simp [calculate_next_active_alarms, occurrences, projectAlarm,
      List.insertionSort]
  all_goals
    simp only [projectOnce, midnightOf, dateOf]
    split_ifs <;> omega

/-- Witness for C2 (amended): a "ONCE" alarm at 08:00 seen at 10:00. -/
theorem once_alarm_projection_witness :
    calculate_next_active_alarms (some [⟨"ON", [AlarmDay.once], 480⟩]) 600
        = some [projectOnce 600 480]
    ∧ projectOnce 600 480 =
        (if 600 ≤ midnightOf 600 + 480 then midnightOf 600 + 480
         else midnightOf 600 + 480 + 1440)
    ∧ 600 ≤ projectOnce 600 480
    ∧ projectOnce 600 480 < 600 + 1440
    ∧ projectOnce 600 480 % 1440 = 480 :=
  once_alarm_projection 600 480 (by decide) (by decide)

/-- Counterexample to C2 as stated: at `now = 600` (10:00 on day 0) a
"ONCE" alarm with `t = 600` falls exactly on `now`; today-at-`t` is not
strictly in the future, so the spec's wording dictates tomorrow-at-`t`
(2040), but the code keeps today-at-`t` (600). -/
theorem once_alarm_boundary_counterexample :
    projectOnce 600 600 = 600
    ∧ ¬ (600 < midnightOf 600 + 600)
    ∧ projectOnce 600 600 ≠ midnightOf 600 + 600 + 1440 := by
  refine ⟨rfl, by decide, by decide⟩

/-- C3: whenever at least two occurrences are active,
`calculate_next_active_alarms` returns one timestamp per active occurrence
(a permutation of the projected instants, of the same length), sorted
ascending. -/
theorem active_alarms_sorted (alarms : List AlarmSetting) (now : Int)
    (h2 : 2 ≤ (occurrences alarms now).length) :
    ∃ l, calculate_next_active_alarms (some alarms) now = some l
      ∧ l.Perm (occurrences alarms now)
      ∧ l.length = (occurrences alarms now).length
      ∧ List.Sorted (· ≤ ·) l := by
  have halarms : alarms ≠ [] := by
    intro h
    subst h
    simp [occurrences] at h2
  have hocc : occurrences alarms now ≠ [] := by
    intro h
    rw [h] at h2
    simp at h2
  refine ⟨List.insertionSort (· ≤ ·) (occurrences alarms now), ?_, ?_, ?_, ?_⟩
  · simp [calculate_next_active_alarms, halarms, hocc]
  · exact List.perm_insertionSort _ _
  · exact (List.perm_insertionSort _ _).length_eq
  · exact List.sorted_insertionSort _ _

/-- Witness for C3: two active alarms (a "ONCE" at 08:00 and a Monday
alarm at 05:00) seen at 10:00 on a Monday. -/
theorem active_alarms_sorted_witness :
    ∃ l, calculate_next_active_alarms
        (some [⟨"ON", [AlarmDay.once], 480⟩, ⟨"ON", [AlarmDay.mo], 300⟩]) 600
        = some l
      ∧ l.Perm (occurrences
          [⟨"ON", [AlarmDay.once], 480⟩, ⟨"ON", [AlarmDay.mo], 300⟩] 600)
      ∧ l.length = (occurrences
          [⟨"ON", [AlarmDay.once], 480⟩, ⟨"ON", [AlarmDay.mo], 300⟩] 600).length
      ∧ List.Sorted (· ≤ ·) l :=
  active_alarms_sorted
    [⟨"ON", [AlarmDay.once], 480⟩, ⟨"ON", [AlarmDay.mo], 300⟩] 600 (by decide)

/-- C4: for a null (`None`) alarm list and for an empty alarm list,
`calculate_next_active_alarms` returns an empty list of timestamps, for
every `now` (the time zone is abstracted into the wall-clock model). -/
theorem empty_or_null_alarms (now : Int) :
    calculate_next_active_alarms none now = some []
    ∧ calculate_next_active_alarms (some []) now = some [] :=
  ⟨rfl, rfl⟩

/-- C5 (code bug): a single `"OFF"` alarm contributes no occurrence, but
removing it from the input changes the result from `None` to the empty
list, contradicting the repository's own test
`test_calculate_next_active_alarms_off`, which asserts that an OFF-only
list yields `[]`. -/
theorem off_alarm_removal_changes_result :
    calculate_next_active_alarms (some [⟨"OFF", [AlarmDay.mo], 480⟩]) 600 = none
    ∧ calculate_next_active_alarms (some []) 600 = some []
    ∧ (none : Option (List Int)) ≠ some [] := by
  refine ⟨rfl, rfl, by decide⟩

/-- C9: a non-empty alarm list in which no entry has mode `"ON"` yields
`None`, a value distinguishable from the `[]` returned for an empty or null
input. -/
theorem no_active_alarms_yields_none (l : List AlarmSetting) (now : Int)
    (hne : l ≠ []) (hoff : ∀ a ∈ l, a.alarmMode ≠ "ON") :
    calculate_next_active_alarms (some l) now = none
    ∧ calculate_next_active_alarms (some l) now
        ≠ calculate_next_active_alarms (some []) now := by
  have hocc := occurrences_nil_of_no_active l now hoff
  constructor
  · simp [calculate_next_active_alarms, hne, hocc]
  · simp [calculate_next_active_alarms, hne, hocc]

/-- Witness for C9: a list holding one OFF alarm. -/
theorem no_active_alarms_yields_none_witness :
    calculate_next_active_alarms (some [⟨"OFF", [AlarmDay.tu], 30⟩]) 100 = none
    ∧ calculate_next_active_alarms (some [⟨"OFF", [AlarmDay.tu], 30⟩]) 100
        ≠ calculate_next_active_alarms (some []) 100 :=
  no_active_alarms_yields_none [⟨"OFF", [AlarmDay.tu], 30⟩] 100 (by decide)
    (by intro a ha; simp at ha; subst ha; decide)

/-- C10: the older `__init__.py` revision (Sunday-based week start,
`DAY_TO_NUMBER[day] % 7` offset) and the newer coordinator.py revision
(Monday-based week start, `DAY_TO_NUMBER[day] - 1` offset) return equal
results for every alarm list whose alarm times are minutes past midnight
(in `[0, 1440)`) and every `now`. -/
theorem old_new_revisions_agree (alarms : Option (List AlarmSetting))
    (now : Int)
    (h : ∀ a ∈ alarms.getD [], 0 ≤ a.alarmTime ∧ a.alarmTime < 1440) :
    calculate_next_active_alarms_old alarms now
      = calculate_next_active_alarms alarms now := by
  cases alarms with
  | none => rfl
  | some l =>
    simp only [calculate_next_active_alarms_old, calculate_next_active_alarms]
    rw [occurrencesOld_eq_occurrences l now (by simpa using h)]

/-- Witness for C10: a list with a Sunday weekly alarm and a "ONCE" alarm,
seen on a Monday morning. -/
theorem old_new_revisions_agree_witness :
    calculate_next_active_alarms_old
        (some [⟨"ON", [AlarmDay.su], 480⟩, ⟨"ON", [AlarmDay.once], 30⟩]) 600
      = calculate_next_active_alarms
        (some [⟨"ON", [AlarmDay.su], 480⟩, ⟨"ON", [AlarmDay.once], 30⟩]) 600 :=
  old_new_revisions_agree
    (some [⟨"ON", [AlarmDay.su], 480⟩, ⟨"ON", [AlarmDay.once], 30⟩]) 600
    (by intro a ha; simp at ha; rcases ha with h | h <;> subst h <;> decide)

/-! ## Claims about `_async_update_data` and the service handlers -/

theorem tryExtract_of_ne_typeError (j : Json) (p : List String)
    (h : getPath j p ≠ .error .typeError) :
    tryExtract j p = .ok (exceptToOption (getPath j p)) := by
  unfold tryExtract exceptToOption
  cases hg : getPath j p with
  | ok v => rfl
  | error e =>
    cases e with
    | keyError => rfl
    | typeError => exact absurd hg h

/-- C6: when the fetched sleep data lacks one of the expected nested keys
(a `KeyError` on path `i`, no `TypeError` anywhere), the sleep-extraction
block of `_async_update_data` still succeeds and the snapshot is complete:
the affected derived value is `None`, every derived value equals the
extraction of its own path (so the others are unaffected), and the
remainder of the snapshot passes through unchanged. -/
theorem sleep_extraction_degrades_single_field (sd : Json)
    (others : List (String × Option Json)) (i : Fin 6)
    (hok : ∀ j : Fin 6, getPath sd (sleepPath j) ≠ .error .typeError)
    (hmiss : getPath sd (sleepPath i) = .error .keyError) :
    ∃ r, extractSleepDerived sd = .ok r
      ∧ sleepField i r = none
      ∧ (∀ j : Fin 6, sleepField j r = exceptToOption (getPath sd (sleepPath j)))
      ∧ assembleSnapshot others sd = .ok (others ++ sleepEntries r) := by
  have hex : extractSleepDerived sd =
      .ok ⟨exceptToOption (getPath sd (sleepPath 0)),
        exceptToOption (getPath sd (sleepPath 1)),
        exceptToOption (getPath sd (sleepPath 2)),
        exceptToOption (getPath sd (sleepPath 3)),
        exceptToOption (getPath sd (sleepPath 4)),
        exceptToOption (getPath sd (sleepPath 5))⟩ := by
    unfold extractSleepDerived
    rw [tryExtract_of_ne_typeError _ _ (hok 0),
      tryExtract_of_ne_typeError _ _ (hok 1),
      tryExtract_of_ne_typeError _ _ (hok 2),
      tryExtract_of_ne_typeError _ _ (hok 3),
      tryExtract_of_ne_typeError _ _ (hok 4),
      tryExtract_of_ne_typeError _ _ (hok 5)]
    rfl
  refine ⟨_, hex, ?_, ?_, ?_⟩
  · fin_cases i <;> simp_all [sleepField, exceptToOption]
  · intro j
    fin_cases j <;> rfl
  · simp [assembleSnapshot, hex, Except.map]

/-- Witness for C6: sleep data whose `dailySleepDTO` carries the duration
fields but no `sleepScores` object. -/
theorem sleep_extraction_degrades_single_field_witness :
    ∃ r, extractSleepDerived (Json.obj [("dailySleepDTO", Json.obj
        [("sleepTimeSeconds", Json.num 25200),
         ("deepSleepSeconds", Json.num 5400),
         ("lightSleepSeconds", Json.num 12600),
         ("remSleepSeconds", Json.num 5400),
         ("awakeSleepSeconds", Json.num 1800)])]) = .ok r
      ∧ sleepField 0 r = none
      ∧ (∀ j : Fin 6, sleepField j r = exceptToOption (getPath (Json.obj
          [("dailySleepDTO", Json.obj
            [("sleepTimeSeconds", Json.num 25200),
             ("deepSleepSeconds", Json.num 5400),
             ("lightSleepSeconds", Json.num 12600),
             ("remSleepSeconds", Json.num 5400),
             ("awakeSleepSeconds", Json.num 1800)])]) (sleepPath j)))
      ∧ assembleSnapshot [("totalSteps", some (Json.num 9000))] (Json.obj
          [("dailySleepDTO", Json.obj
            [("sleepTimeSeconds", Json.num 25200),
             ("deepSleepSeconds", Json.num 5400),
             ("lightSleepSeconds", Json.num 12600),
             ("remSleepSeconds", Json.num 5400),
             ("awakeSleepSeconds", Json.num 1800)])])
        = .ok ([("totalSteps", some (Json.num 9000))] ++ sleepEntries r) :=
  sleep_extraction_degrades_single_field _ _ 0
    (by intro j; fin_cases j <;> simp [sleepPath, getPath, getItem, List.lookup])
    (by rfl)

/-- Counterexample to C7 as stated: a rate-limit error raised in the second
fetch block (`GarminConnectTooManyRequestsError` while fetching gear /
fitness age / hydration / blood pressure) makes `_async_update_data`
`return` an empty snapshot — a successful cycle — not a transient
`UpdateFailed` cycle failure. -/
theorem rate_limit_counterexample :
    updateData ⟨none, true, .ok, some .tooMany, none⟩ = .snapshot true
    ∧ updateData ⟨none, true, .ok, some .tooMany, none⟩ ≠ .updateFailed := by
  exact ⟨rfl, by decide⟩

/-- C7 holds as amended: a rate-limit error in the first fetch block
triggers a relogin and, when the relogin fails, surfaces as a transient
`UpdateFailed`; a rate-limit error in the second fetch block ends the cycle
successfully with an empty snapshot; a rate-limit error in the gear-stats
block raises `ConfigEntryNotReady`. -/
theorem rate_limit_routing (b : FetchBehavior) :
    (b.phase1 = some .tooMany → b.login = .failed →
        updateData b = .updateFailed)
    ∧ (b.phase1 = none → b.phase2 = some .tooMany →
        updateData b = .snapshot true)
    ∧ (b.phase1 = none → b.phase2 = none → b.phase3 = some .tooMany →
        updateData b = .raisedNotReady) := by
  obtain ⟨p1, bf, lg, p2, p3⟩ := b
  refine ⟨?_, ?_, ?_⟩
  · rintro rfl rfl
    rfl
  · rintro rfl rfl
    rfl
  · rintro rfl rfl rfl
    rfl

/-- Witness for C7 (amended): the three rate-limit placements, evaluated. -/
theorem rate_limit_routing_witness :
    updateData ⟨some .tooMany, false, .failed, none, none⟩ = .updateFailed
    ∧ updateData ⟨none, true, .failed, some .tooMany, none⟩ = .snapshot true
    ∧ updateData ⟨none, true, .failed, none, some .tooMany⟩ = .raisedNotReady :=
  ⟨(rate_limit_routing ⟨some .tooMany, false, .failed, none, none⟩).1 rfl rfl,
   (rate_limit_routing ⟨none, true, .failed, some .tooMany, none⟩).2.1 rfl rfl,
   (rate_limit_routing ⟨none, true, .failed, none,
      some .tooMany⟩).2.2 rfl rfl rfl⟩

/-- C8: for each of the five write-back handlers, when `async_login` does
not return success the handler ends in an error (its own
`HomeAssistantError`/`IntegrationError`, or the login exception
propagating) and performs no vendor-API write call; since this holds for
every parameter combination, a performed write implies the login check
succeeded. -/
theorem write_actions_require_login (login : LoginOutcome)
    (apiRaises₁ apiRaises₂ apiRaises₃ apiRaises₄ : Bool)
    (fileExists lookupFound onlyThisAsDefault : Bool) (toDeactivate : Nat)
    (h : login ≠ .ok) :
    ((handle_add_body_composition login apiRaises₁).writes = []
      ∧ (handle_add_body_composition login apiRaises₁).result ≠ .done)
    ∧ ((handle_add_blood_pressure login apiRaises₂).writes = []
      ∧ (handle_add_blood_pressure login apiRaises₂).result ≠ .done)
    ∧ ((handle_create_activity login apiRaises₃).writes = []
      ∧ (handle_create_activity login apiRaises₃).result ≠ .done)
    ∧ ((handle_upload_activity login fileExists apiRaises₄).writes = []
      ∧ (handle_upload_activity login fileExists apiRaises₄).result ≠ .done)
    ∧ ((set_active_gear login lookupFound onlyThisAsDefault toDeactivate).writes
        = []
      ∧ (set_active_gear login lookupFound onlyThisAsDefault
          toDeactivate).result ≠ .done) := by
  cases login with
  | ok => exact absurd rfl h
  | _ =>
    simp [handle_add_body_composition, handle_add_blood_pressure,
      handle_create_activity, handle_upload_activity, set_active_gear]

/-- Witness for C8: a failed login check, arbitrary parameters. -/
theorem write_actions_require_login_witness :
    ((handle_add_body_composition .failed true).writes = []
      ∧ (handle_add_body_composition .failed true).result ≠ .done)
    ∧ ((handle_add_blood_pressure .failed false).writes = []
      ∧ (handle_add_blood_pressure .failed false).result ≠ .done)
    ∧ ((handle_create_activity .failed true).writes = []
      ∧ (handle_create_activity .failed true).result ≠ .done)
    ∧ ((handle_upload_activity .failed true false).writes = []
      ∧ (handle_upload_activity .failed true false).result ≠ .done)
    ∧ ((set_active_gear .failed true true 2).writes = []
      ∧ (set_active_gear .failed true true 2).result ≠ .done) :=
  write_actions_require_login .failed true false true false true true true 2
    (by decide)

end GarminConnect
